import Mathlib

/-!
Shallow embedding of the HRMS directory service handlers
(`src/employees/api_views.py`) and proofs about the role-based access
policy, the profile verification workflow and the update semantics.

The Directory Store is modelled as lists of entities; each handler is a
pure function from a store, the acting principal (`request.user`) and the
request parameters to a response and the updated store.  `view_profile_api`
additionally returns the trace of store accesses it performed, to settle
ordering claims about policy checks versus store access.
-/

namespace HRMS

/-- Role enum of a principal (`accounts.models.User.role`). -/
inductive Role
  | ADMIN
  | HR
  | MANAGER
  | EMPLOYEE
deriving DecidableEq, Repr

/-- Authenticated principal (`accounts.models.User`).  Password handling is
out of scope (external credential layer), so no password field is kept. -/
structure User where
  id : Nat
  username : String
  first_name : String
  last_name : String
  email : String
  role : Role
deriving DecidableEq, Repr

/-- `employees.models.Employee`: primary key `id`, public code `employee_id`
(the `emp` query parameter of `view_profile_api` resolves against it), the
owning principal `user_id`, and organizational placement fields. -/
structure Employee where
  id : Nat
  employee_id : String
  user_id : Nat
  department_id : Nat
  designation_id : Nat
  date_of_joining : String
  basic_salary : Int
deriving DecidableEq, Repr

/-- `employees.models.EmployeeProfile`: `employee` is the owning principal
(user) reference — the code calls `get_or_create(employee=user)` and filters
on `employee__role`.  The free-form personal fields (`bio`, `phone`,
`address`) are modelled from the spec ("free-form personal/contact fields";
`models.py` is outside the provided source). -/
structure EmployeeProfile where
  id : Nat
  employee : Nat
  verified : Bool
  bio : String
  phone : String
  address : String
deriving DecidableEq, Repr

/-- The Directory Store: entity tables plus primary-key counters. -/
structure Store where
  users : List User
  employees : List Employee
  profiles : List EmployeeProfile
  nextUserId : Nat
  nextEmployeePk : Nat
  nextProfileId : Nat
deriving DecidableEq, Repr

/-- `request.user.role not in ["ADMIN", "HR"]` guard, positively phrased. -/
def isAdminHR (r : Role) : Bool :=
  r == Role.ADMIN || r == Role.HR

/-- `User.objects.get(id=uid)` as an optional lookup. -/
def findUserById (s : Store) (uid : Nat) : Option User :=
  s.users.find? (fun u => u.id == uid)

/-- `Employee.objects.get(user=user)` as an optional lookup. -/
def findEmployeeByUserId (s : Store) (uid : Nat) : Option Employee :=
  s.employees.find? (fun e => e.user_id == uid)

/-- `Employee.objects.get(employee_id=emp_id)` as an optional lookup. -/
def findEmployeeByEmpId (s : Store) (eid : String) : Option Employee :=
  s.employees.find? (fun e => e.employee_id == eid)

/-- `get_object_or_404(Employee, pk=pk)` as an optional lookup. -/
def findEmployeeByPk (s : Store) (pk : Nat) : Option Employee :=
  s.employees.find? (fun e => e.id == pk)

/-- `EmployeeProfile.objects.get(employee=user)` as an optional lookup. -/
def findProfileByUserId (s : Store) (uid : Nat) : Option EmployeeProfile :=
  s.profiles.find? (fun p => p.employee == uid)

/-- `get_object_or_404(EmployeeProfile, id=profile_id)` as an optional lookup. -/
def findProfileById (s : Store) (pid : Nat) : Option EmployeeProfile :=
  s.profiles.find? (fun p => p.id == pid)

/-- A fresh profile row, as created by
`EmployeeProfile.objects.create(employee=uid)` / `get_or_create`:
`verified` defaults to `false`, free-form fields default empty. -/
def freshProfile (s : Store) (uid : Nat) : EmployeeProfile :=
  { id := s.nextProfileId, employee := uid, verified := false,
    bio := "", phone := "", address := "" }

/-- `EmployeeProfile.objects.get_or_create(employee=user)`: returns the
profile, the (possibly extended) store, and whether a row was created. -/
def get_or_create_profile (s : Store) (uid : Nat) :
    EmployeeProfile × Store × Bool :=
  match findProfileByUserId s uid with
  | some p => (p, s, false)
  | none =>
      let p := freshProfile s uid
      (p, { s with profiles := s.profiles ++ [p],
                   nextProfileId := s.nextProfileId + 1 }, true)

/-- `profile.save()` after mutating a fetched row: replaces the row with
the matching primary key. -/
def saveProfile (s : Store) (p : EmployeeProfile) : Store :=
  { s with profiles := s.profiles.map (fun q => if q.id == p.id then p else q) }

/-- `employee.save()` after mutating a fetched row. -/
def saveEmployee (s : Store) (e : Employee) : Store :=
  { s with employees := s.employees.map (fun q => if q.id == e.id then e else q) }

/-! ## view_profile_api -/

/-- One store access performed by `view_profile_api`, in program order. -/
inductive StoreEvent
  | readEmployeeByUser (user_id : Nat)
  | readEmployeeByEmpId (emp_id : String)
  | readProfileByUser (user_id : Nat)
  | createProfile (user_id : Nat)
deriving DecidableEq, Repr

/-- Whether a store event mutates the store. -/
def StoreEvent.isWrite : StoreEvent → Bool
  | .createProfile _ => true
  | _ => false

inductive ViewProfileResp
  | ok (employee : Employee) (profile : EmployeeProfile)
  | permissionDenied
  | notFound
deriving DecidableEq, Repr

/-- Result of `view_profile_api`: response, trace of store accesses in
program order, and the store afterwards. -/
structure ViewResult where
  resp : ViewProfileResp
  events : List StoreEvent
  store : Store
deriving DecidableEq, Repr

/-- Tail of `view_profile_api` once a target is authorized: lazily create
the target's profile (`get_or_create`) and assemble the response. -/
def viewServeTarget (s : Store) (evs : List StoreEvent) (target : Employee) :
    ViewResult :=
  let r := get_or_create_profile s target.user_id
  { resp := ViewProfileResp.ok target r.1,
    events := evs ++ [StoreEvent.readProfileByUser target.user_id] ++
      (if r.2.2 then [StoreEvent.createProfile target.user_id] else []),
    store := r.2.1 }

/-- Line 188, `not logged_in_emp or target.department_id !=
logged_in_emp.department_id`, as a boolean on the optional own record. -/
def managerDeniedCheck (logged_in_emp : Option Employee) (target : Employee) :
    Bool :=
  match logged_in_emp with
  | none => true
  | some own => target.department_id != own.department_id

/-- Line 191, `not logged_in_emp or target.user_id != user.id`. -/
def selfDeniedCheck (logged_in_emp : Option Employee) (user : User)
    (target : Employee) : Bool :=
  match logged_in_emp with
  | none => true
  | some _ => target.user_id != user.id

/-- `view_profile_api` from the point where `logged_in_emp` has been
resolved (lines 178–199 of the source): dispatch on the `emp` parameter,
apply the role/department/self checks, then serve the target. -/
def viewWithLoggedIn (s : Store) (evs : List StoreEvent) (user : User)
    (logged_in_emp : Option Employee) (emp_id : Option String) : ViewResult :=
  match emp_id with
  | none =>
      match logged_in_emp with
      | none => { resp := ViewProfileResp.permissionDenied, events := evs, store := s }
      | some own => viewServeTarget s evs own
  | some eid =>
      let evs := evs ++ [StoreEvent.readEmployeeByEmpId eid]
      match findEmployeeByEmpId s eid with
      | none => { resp := ViewProfileResp.notFound, events := evs, store := s }
      | some target =>
          if user.role == Role.ADMIN || user.role == Role.HR then
            viewServeTarget s evs target
          else if user.role == Role.MANAGER then
            if managerDeniedCheck logged_in_emp target then
              { resp := ViewProfileResp.permissionDenied, events := evs, store := s }
            else viewServeTarget s evs target
          else
            if selfDeniedCheck logged_in_emp user target then
              { resp := ViewProfileResp.permissionDenied, events := evs, store := s }
            else viewServeTarget s evs target

/-- `view_profile_api(request)` with `emp_id = request.GET.get('emp')`
(`none` models an absent or empty parameter, both falsy in the source).
MANAGER/EMPLOYEE actors first resolve their own employee record and are
denied outright if none exists (lines 171–176). -/
def view_profile_api (s : Store) (user : User) (emp_id : Option String) :
    ViewResult :=
  if user.role == Role.MANAGER || user.role == Role.EMPLOYEE then
    let evs := [StoreEvent.readEmployeeByUser user.id]
    match findEmployeeByUserId s user.id with
    | none => { resp := ViewProfileResp.permissionDenied, events := evs, store := s }
    | some own => viewWithLoggedIn s evs user (some own) emp_id
  else
    viewWithLoggedIn s [] user none emp_id

/-! ## employee_profile_api (self-service profile, GET and PUT) -/

inductive ProfileGetResp
  | okWithEmployee (profile : EmployeeProfile) (employee_record : Employee)
  | okNoEmployee (profile : EmployeeProfile)
deriving DecidableEq, Repr

/-- `employee_profile_api` GET branch (lines 135–149): get-or-create the
caller's profile, then attach the employee record only if one exists.
There is no role guard beyond authentication. -/
def employee_profile_api_get (s : Store) (user : User) :
    ProfileGetResp × Store :=
  let r := get_or_create_profile s user.id
  match findEmployeeByUserId r.2.1 user.id with
  | some emp => (ProfileGetResp.okWithEmployee r.1 emp, r.2.1)
  | none => (ProfileGetResp.okNoEmployee r.1, r.2.1)

/-- PUT payload for the profile serializer (`partial=True`): each free-form
field is optionally present.  Field inventory modelled from the spec
("free-form personal/contact fields"); `serializers.py` is outside the
provided source. -/
structure ProfileUpdatePayload where
  bio : Option String
  phone : Option String
  address : Option String
deriving DecidableEq, Repr

/-- `serializer.save()` with `partial=True`: present fields overwrite,
absent fields keep their current value; `verified` is not writable through
the payload. -/
def applyProfileUpdate (p : EmployeeProfile) (d : ProfileUpdatePayload) :
    EmployeeProfile :=
  { p with
    bio := d.bio.getD p.bio,
    phone := d.phone.getD p.phone,
    address := d.address.getD p.address }

inductive ProfilePutResp
  | ok (profile : EmployeeProfile)
  | badRequest
deriving DecidableEq, Repr

/-- `employee_profile_api` PUT branch (lines 151–161).  `is_valid` stands
for the serializer's validation verdict (an external concern per the spec);
on success the fields are saved and then `verified` is reset to `false`
and saved again, exactly as the source sequences it. -/
def employee_profile_api_put (s : Store) (user : User)
    (d : ProfileUpdatePayload) (is_valid : Bool) : ProfilePutResp × Store :=
  let r := get_or_create_profile s user.id
  let profile := r.1
  let s1 := r.2.1
  if is_valid then
    let p1 := applyProfileUpdate profile d
    let s2 := saveProfile s1 p1
    let p2 := { p1 with verified := false }
    let s3 := saveProfile s2 p2
    (ProfilePutResp.ok p2, s3)
  else
    (ProfilePutResp.badRequest, s1)

/-! ## pending_profiles_api and approve_profile_api -/

inductive PendingResp
  | ok (profiles : List EmployeeProfile)
  | permissionDenied
deriving DecidableEq, Repr

/-- The queryset `EmployeeProfile.objects.filter(verified=False,
employee__role="EMPLOYEE")`: the `employee__role` condition joins through
the owning principal, so a profile whose owner row is absent matches
nothing. -/
def pendingProfiles (s : Store) : List EmployeeProfile :=
  s.profiles.filter (fun p =>
    match findUserById s p.employee with
    | some u => !p.verified && u.role == Role.EMPLOYEE
    | none => false)

/-- `pending_profiles_api` (lines 204–213). -/
def pending_profiles_api (s : Store) (user : User) : PendingResp :=
  if isAdminHR user.role then PendingResp.ok (pendingProfiles s)
  else PendingResp.permissionDenied

inductive ApproveResp
  | ok
  | permissionDenied
  | notFound
deriving DecidableEq, Repr

/-- `approve_profile_api` (lines 218–225): role guard, fetch by id (404 if
absent), set `verified = True`, save. -/
def approve_profile_api (s : Store) (actor : User) (profile_id : Nat) :
    ApproveResp × Store :=
  if !isAdminHR actor.role then (ApproveResp.permissionDenied, s)
  else
    match findProfileById s profile_id with
    | none => (ApproveResp.notFound, s)
    | some p => (ApproveResp.ok, saveProfile s { p with verified := true })

/-! ## employee_detail_api (PUT branch) -/

inductive DetailResp
  | ok (employee : Employee)
  | permissionDenied
  | notFound
deriving DecidableEq, Repr

/-- PUT payload of `employee_detail_api`: the handler checks each key for
presence in `request.data` individually. -/
structure EmployeeUpdatePayload where
  department : Option Nat
  designation : Option Nat
  basic_salary : Option Int
  date_of_joining : Option String
deriving DecidableEq, Repr

/-- The four `if key in request.data` assignments of lines 79–86. -/
def applyEmployeeUpdate (e : Employee) (d : EmployeeUpdatePayload) : Employee :=
  { e with
    department_id := d.department.getD e.department_id,
    designation_id := d.designation.getD e.designation_id,
    basic_salary := d.basic_salary.getD e.basic_salary,
    date_of_joining := d.date_of_joining.getD e.date_of_joining }

/-- `employee_detail_api` PUT branch (lines 67–89): ADMIN/HR guard, fetch
by primary key (404 if absent), apply the present fields, save. -/
def employee_detail_api_put (s : Store) (actor : User) (pk : Nat)
    (d : EmployeeUpdatePayload) : DetailResp × Store :=
  if !isAdminHR actor.role then (DetailResp.permissionDenied, s)
  else
    match findEmployeeByPk s pk with
    | none => (DetailResp.notFound, s)
    | some e =>
        let e1 := applyEmployeeUpdate e d
        (DetailResp.ok e1, saveEmployee s e1)

/-! ## create_employee_api -/

/-- Payload of `EmployeeCreateSerializer`.  The `role` field models a role
value a caller may place in the request body; the handler never reads it
(`role='EMPLOYEE'` is hard-coded at the `create_user` call). -/
structure EmployeeCreatePayload where
  username : String
  first_name : String
  last_name : String
  email : String
  department : Nat
  designation : Nat
  date_of_joining : String
  basic_salary : Int
  role : Option Role
deriving DecidableEq, Repr

inductive CreateResp
  | created (employee : Employee)
  | permissionDenied
  | badRequest
  | storeError
deriving DecidableEq, Repr

/-- `create_employee_api` (lines 29–62): role guard, serializer validation
(`is_valid` stands for its verdict, an external concern), then three
sequential store creations with no surrounding transaction.
`employee_step_ok` models whether the `Employee.objects.create` store call
succeeds (the store "either succeeds or fails" per its contract); when it
fails, the handler aborts with the user row already committed, since no
atomic unit wraps the sequence.  The created employee's public code is the
primary key rendered as a string (code generation lives in `models.py`,
outside the provided source). -/
def create_employee_api (s : Store) (actor : User)
    (d : EmployeeCreatePayload) (is_valid : Bool) (employee_step_ok : Bool) :
    CreateResp × Store :=
  if !isAdminHR actor.role then (CreateResp.permissionDenied, s)
  else if !is_valid then (CreateResp.badRequest, s)
  else
    let u : User :=
      { id := s.nextUserId, username := d.username,
        first_name := d.first_name, last_name := d.last_name,
        email := d.email, role := Role.EMPLOYEE }
    let s1 : Store :=
      { s with users := s.users ++ [u], nextUserId := s.nextUserId + 1 }
    if !employee_step_ok then (CreateResp.storeError, s1)
    else
      let e : Employee :=
        { id := s1.nextEmployeePk, employee_id := toString s1.nextEmployeePk,
          user_id := u.id, department_id := d.department,
          designation_id := d.designation,
          date_of_joining := d.date_of_joining,
          basic_salary := d.basic_salary }
      let s2 : Store :=
        { s1 with employees := s1.employees ++ [e],
                  nextEmployeePk := s1.nextEmployeePk + 1 }
      let s3 : Store :=
        { s2 with profiles := s2.profiles ++ [freshProfile s2 u.id],
                  nextProfileId := s2.nextProfileId + 1 }
      (CreateResp.created e, s3)

/-! ## Store lemmas -/

/-- Saving a row `q` that replaces the first `pred`-match `p` (same key)
makes `q` the first `pred`-match of the updated table: rows before `p`
never satisfy `pred`, and each is either left alone or replaced by `q`,
which satisfies `pred`. -/
theorem find?_map_update {α : Type} (pred : α → Bool) (key : α → Nat)
    (l : List α) (p q : α) (hl : l.find? pred = some p)
    (hq : pred q = true) (hk : key q = key p) :
    (l.map (fun r => if key r == key q then q else r)).find? pred = some q := by
  induction l with
  | nil => simp at hl
  | cons a t ih =>
      by_cases ha : pred a = true
      · rw [List.find?_cons_of_pos _ ha] at hl
        injection hl with hap
        subst hap
        simp only [List.map_cons, hk, beq_self_eq_true, if_true]
        exact List.find?_cons_of_pos _ hq
      · rw [List.find?_cons_of_neg _ ha] at hl
        simp only [List.map_cons]
        by_cases hka : (key a == key q) = true
        · rw [if_pos hka]
          exact List.find?_cons_of_pos _ hq
        · rw [if_neg hka]
          rw [List.find?_cons_of_neg _ ha]
          exact ih hl

/-- `get_or_create_profile` leaves the profile it returns as the first
profile of the resulting store owned by `uid`. -/
theorem get_or_create_profile_found (s : Store) (uid : Nat) :
    findProfileByUserId (get_or_create_profile s uid).2.1 uid =
      some (get_or_create_profile s uid).1 := by
  unfold get_or_create_profile
  cases h : findProfileByUserId s uid with
  | some p => simpa using h
  | none =>
      simp only
      unfold findProfileByUserId at h ⊢
      simp only [List.find?_append, h, Option.none_or]
      simp [freshProfile]

/-- The profile returned by `get_or_create_profile` is owned by `uid`. -/
theorem get_or_create_profile_owner (s : Store) (uid : Nat) :
    ((get_or_create_profile s uid).1).employee = uid := by
  unfold get_or_create_profile
  cases h : findProfileByUserId s uid with
  | some p =>
      have := List.find?_some h
      simpa using this
  | none => simp [freshProfile]

/-- `get_or_create_profile` touches only the profile table. -/
theorem get_or_create_profile_employees (s : Store) (uid : Nat) :
    ((get_or_create_profile s uid).2.1).employees = s.employees := by
  unfold get_or_create_profile
  cases h : findProfileByUserId s uid <;> simp

/-! ## Concrete sample data (used by witness and counterexample theorems) -/

def uAdmin : User :=
  { id := 10, username := "admin", first_name := "", last_name := "",
    email := "", role := Role.ADMIN }

def uMgr : User :=
  { id := 1, username := "mgr", first_name := "", last_name := "",
    email := "", role := Role.MANAGER }

def uEmp : User :=
  { id := 2, username := "emp", first_name := "", last_name := "",
    email := "", role := Role.EMPLOYEE }

def uEmp2 : User :=
  { id := 3, username := "emp2", first_name := "", last_name := "",
    email := "", role := Role.EMPLOYEE }

def eMgr : Employee :=
  { id := 1, employee_id := "E1", user_id := 1, department_id := 1,
    designation_id := 1, date_of_joining := "2020-01-01", basic_salary := 900 }

def eEmp : Employee :=
  { id := 2, employee_id := "E2", user_id := 2, department_id := 1,
    designation_id := 2, date_of_joining := "2021-01-01", basic_salary := 500 }

def eEmp2 : Employee :=
  { id := 3, employee_id := "E3", user_id := 3, department_id := 2,
    designation_id := 2, date_of_joining := "2022-01-01", basic_salary := 500 }

def pEmp : EmployeeProfile :=
  { id := 1, employee := 2, verified := false, bio := "b", phone := "",
    address := "" }

def pMgrProf : EmployeeProfile :=
  { id := 2, employee := 1, verified := false, bio := "", phone := "",
    address := "" }

def pVer : EmployeeProfile :=
  { id := 3, employee := 3, verified := true, bio := "", phone := "",
    address := "" }

def storeA : Store :=
  { users := [uAdmin, uMgr, uEmp, uEmp2],
    employees := [eMgr, eEmp, eEmp2],
    profiles := [pEmp, pMgrProf, pVer],
    nextUserId := 11, nextEmployeePk := 4, nextProfileId := 4 }

def storeEmpty : Store :=
  { users := [], employees := [], profiles := [],
    nextUserId := 0, nextEmployeePk := 0, nextProfileId := 0 }

/-! ## Claim theorems -/

/-- C1: a MANAGER or EMPLOYEE actor with no Employee record owned by them
is denied every target-scoped profile view, whatever the target parameter
is (the denial precedes any use of the target). -/
theorem view_denied_without_own_record (s : Store) (user : User)
    (eid : String)
    (hrole : user.role = Role.MANAGER ∨ user.role = Role.EMPLOYEE)
    (hnone : findEmployeeByUserId s user.id = none) :
    (view_profile_api s user (some eid)).resp =
      ViewProfileResp.permissionDenied := by
  have hguard : (user.role == Role.MANAGER || user.role == Role.EMPLOYEE) = true := by
    rcases hrole with h | h <;> simp [h]
  simp [view_profile_api, hguard, hnone]

/-- Witness for C1: the MANAGER principal of an empty store is denied a
target-scoped view of "E9". -/
theorem view_denied_without_own_record_witness :
    (uMgr.role = Role.MANAGER ∨ uMgr.role = Role.EMPLOYEE) ∧
    findEmployeeByUserId storeEmpty uMgr.id = none ∧
    (view_profile_api storeEmpty uMgr (some "E9")).resp =
      ViewProfileResp.permissionDenied :=
  ⟨Or.inl rfl, rfl,
    view_denied_without_own_record storeEmpty uMgr "E9" (Or.inl rfl) rfl⟩

/-- C2: a MANAGER with an own employee record may view an existing target
exactly when the target's department equals their own; a department
mismatch yields PermissionDenied. -/
theorem manager_view_department_scoped (s : Store) (user : User)
    (own target : Employee) (eid : String)
    (hrole : user.role = Role.MANAGER)
    (hown : findEmployeeByUserId s user.id = some own)
    (htarget : findEmployeeByEmpId s eid = some target) :
    (target.department_id = own.department_id →
      ∃ p, (view_profile_api s user (some eid)).resp =
        ViewProfileResp.ok target p) ∧
    (target.department_id ≠ own.department_id →
      (view_profile_api s user (some eid)).resp =
        ViewProfileResp.permissionDenied) := by
  constructor
  · intro hdep
    refine ⟨(get_or_create_profile s target.user_id).1, ?_⟩
    simp [view_profile_api, hrole, hown, viewWithLoggedIn, htarget,
      managerDeniedCheck, viewServeTarget, hdep]
  · intro hdep
    simp [view_profile_api, hrole, hown, viewWithLoggedIn, htarget,
      managerDeniedCheck, viewServeTarget, hdep]

/-- Witness for C2: manager of department 1 viewing "E2" (department 1,
allowed) and, via the second conjunct at "E3" form, the same-department
clause; the hypotheses are discharged on the concrete store. -/
theorem manager_view_department_scoped_witness :
    (eEmp.department_id = eMgr.department_id →
      ∃ p, (view_profile_api storeA uMgr (some "E2")).resp =
        ViewProfileResp.ok eEmp p) ∧
    (eEmp.department_id ≠ eMgr.department_id →
      (view_profile_api storeA uMgr (some "E2")).resp =
        ViewProfileResp.permissionDenied) :=
  manager_view_department_scoped storeA uMgr eMgr eEmp "E2" rfl (by decide)
    (by decide)

/-- C3: a successful self-edit (valid PUT on `employee_profile_api`) leaves
the caller's stored profile unverified, for every prior store state and
every payload — including a payload changing nothing and a profile that was
already unverified. -/
theorem self_edit_resets_verified (s : Store) (user : User)
    (d : ProfileUpdatePayload) :
    ∃ p, (employee_profile_api_put s user d true).1 = ProfilePutResp.ok p ∧
      p.verified = false ∧
      findProfileByUserId (employee_profile_api_put s user d true).2 user.id =
        some p := by
  refine ⟨{ applyProfileUpdate (get_or_create_profile s user.id).1 d with
            verified := false }, rfl, rfl, ?_⟩
  have h0 := get_or_create_profile_found s user.id
  have howner := get_or_create_profile_owner s user.id
  show findProfileByUserId
      (saveProfile
        (saveProfile (get_or_create_profile s user.id).2.1
          (applyProfileUpdate (get_or_create_profile s user.id).1 d))
        { applyProfileUpdate (get_or_create_profile s user.id).1 d with
          verified := false }) user.id = _
  have h1 :
      findProfileByUserId
        (saveProfile (get_or_create_profile s user.id).2.1
          (applyProfileUpdate (get_or_create_profile s user.id).1 d)) user.id =
      some (applyProfileUpdate (get_or_create_profile s user.id).1 d) := by
    unfold findProfileByUserId saveProfile at *
    exact find?_map_update _ EmployeeProfile.id _
      (get_or_create_profile s user.id).1 _ h0
      (by simp [applyProfileUpdate, howner]) (by simp [applyProfileUpdate])
  unfold findProfileByUserId saveProfile at *
  exact find?_map_update _ EmployeeProfile.id _
    (applyProfileUpdate (get_or_create_profile s user.id).1 d) _ h1
    (by simp [applyProfileUpdate, howner]) (by simp)

/-- C4: approving a profile by an ADMIN/HR actor succeeds, leaves the
profile verified, and is idempotent: a second approval returns the same
response and the same store, so approving an already-VERIFIED profile is a
successful no-op. -/
theorem approve_profile_idempotent (s : Store) (actor : User) (pid : Nat)
    (p : EmployeeProfile)
    (hrole : isAdminHR actor.role = true)
    (hp : findProfileById s pid = some p) :
    (approve_profile_api s actor pid).1 = ApproveResp.ok ∧
    (findProfileById (approve_profile_api s actor pid).2 pid).map
      EmployeeProfile.verified = some true ∧
    approve_profile_api (approve_profile_api s actor pid).2 actor pid =
      approve_profile_api s actor pid := by
  have hp' : s.profiles.find? (fun q => q.id == pid) = some p := hp
  have hpk0 := List.find?_some hp'
  have hpk : (p.id == pid) = true := by simpa using hpk0
  have hfound :
      findProfileById (saveProfile s { p with verified := true }) pid =
        some { p with verified := true } := by
    unfold findProfileById saveProfile at *
    exact find?_map_update _ EmployeeProfile.id _ p _ hp (by simpa using hpk)
      rfl
  have happrove :
      approve_profile_api s actor pid =
        (ApproveResp.ok, saveProfile s { p with verified := true }) := by
    simp [approve_profile_api, hrole, hp]
  refine ⟨by simp [happrove], by simp [happrove, hfound], ?_⟩
  rw [happrove]
  simp only [approve_profile_api, hrole, Bool.not_true, Bool.false_eq_true,
    if_false, hfound]
  have hmap :
      saveProfile (saveProfile s { p with verified := true })
          { p with verified := true } =
        saveProfile s { p with verified := true } := by
    unfold saveProfile
    simp only [List.map_map]
    congr 1
    refine List.map_congr_left ?_
    intro a _
    by_cases h : (a.id == p.id) = true
    · simp [Function.comp, h]
    · simp [Function.comp, h]
  simp [hmap]

/-- Witness for C4 at an already-verified profile: approving profile 3
(owned by principal 3, already verified) in the sample store. -/
theorem approve_profile_idempotent_witness :
    (approve_profile_api storeA uAdmin 3).1 = ApproveResp.ok ∧
    (findProfileById (approve_profile_api storeA uAdmin 3).2 3).map
      EmployeeProfile.verified = some true ∧
    approve_profile_api (approve_profile_api storeA uAdmin 3).2 uAdmin 3 =
      approve_profile_api storeA uAdmin 3 :=
  approve_profile_idempotent storeA uAdmin 3 pVer rfl (by decide)

/-- C5: for an ADMIN/HR actor the pending query returns exactly the
profiles that are unverified and owned by a principal whose role is
EMPLOYEE; unverified profiles of MANAGER/HR/ADMIN principals are excluded. -/
theorem pending_profiles_exact (s : Store) (actor : User)
    (p : EmployeeProfile)
    (hrole : isAdminHR actor.role = true) :
    pending_profiles_api s actor = PendingResp.ok (pendingProfiles s) ∧
    (p ∈ pendingProfiles s ↔
      p ∈ s.profiles ∧ p.verified = false ∧
      ∃ u, findUserById s p.employee = some u ∧ u.role = Role.EMPLOYEE) := by
  refine ⟨by simp [pending_profiles_api, hrole], ?_⟩
  unfold pendingProfiles
  rw [List.mem_filter]
  constructor
  · rintro ⟨hmem, hpred⟩
    refine ⟨hmem, ?_⟩
    cases hu : findUserById s p.employee with
    | none => rw [hu] at hpred; simp at hpred
    | some u =>
        rw [hu] at hpred
        simp only [Bool.and_eq_true, Bool.not_eq_true', beq_iff_eq] at hpred
        exact ⟨hpred.1, u, rfl, hpred.2⟩
  · rintro ⟨hmem, hver, u, hu, hrole_u⟩
    refine ⟨hmem, ?_⟩
    rw [hu]
    simp [hver, hrole_u]

/-- Witness for C5: in the sample store, the unverified EMPLOYEE-owned
profile is pending. -/
theorem pending_profiles_exact_witness :
    pending_profiles_api storeA uAdmin = PendingResp.ok (pendingProfiles storeA) ∧
    (pEmp ∈ pendingProfiles storeA ↔
      pEmp ∈ storeA.profiles ∧ pEmp.verified = false ∧
      ∃ u, findUserById storeA pEmp.employee = some u ∧
        u.role = Role.EMPLOYEE) :=
  pending_profiles_exact storeA uAdmin pEmp rfl

/-- Counterexample for C6: the sample manager (department 1) asking for
"E3" (department 2) is denied, yet the trace shows the target Employee row
was read from the store before the denial — contradicting "a denied
request never reads or writes any store entity". -/
theorem denied_view_reads_target_counterexample :
    (view_profile_api storeA uMgr (some "E3")).resp =
      ViewProfileResp.permissionDenied ∧
    StoreEvent.readEmployeeByEmpId "E3" ∈
      (view_profile_api storeA uMgr (some "E3")).events := by decide

/-- Appending one read event preserves the all-reads property of a trace. -/
theorem all_reads_append (evs : List StoreEvent) (ev : StoreEvent)
    (hevs : (evs.all fun e => !e.isWrite) = true)
    (hev : ev.isWrite = false) :
    ((evs ++ [ev]).all fun e => !e.isWrite) = true := by
  rw [List.all_append, hevs]
  simp [hev]

/-- Every denial path of the dispatch tail leaves the store unchanged and
appends only read events. -/
theorem viewWithLoggedIn_denied_no_write (s : Store) (evs : List StoreEvent)
    (user : User) (le : Option Employee) (emp_id : Option String)
    (hevs : (evs.all fun ev => !ev.isWrite) = true)
    (h : (viewWithLoggedIn s evs user le emp_id).resp =
      ViewProfileResp.permissionDenied) :
    (viewWithLoggedIn s evs user le emp_id).store = s ∧
    ((viewWithLoggedIn s evs user le emp_id).events.all
      fun ev => !ev.isWrite) = true := by
  obtain ⟨v, hv⟩ : ∃ v, viewWithLoggedIn s evs user le emp_id = v := ⟨_, rfl⟩
  rw [hv] at h ⊢
  cases emp_id with
  | none =>
      cases le with
      | none =>
          simp only [viewWithLoggedIn] at hv
          subst hv
          exact ⟨rfl, hevs⟩
      | some own =>
          simp only [viewWithLoggedIn] at hv
          subst hv
          simp [viewServeTarget] at h
  | some eid =>
      simp only [viewWithLoggedIn] at hv
      cases htgt : findEmployeeByEmpId s eid with
      | none =>
          simp only [htgt] at hv
          subst hv
          simp at h
      | some target =>
          simp only [htgt] at hv
          by_cases ha : (user.role == Role.ADMIN || user.role == Role.HR) = true
          · rw [if_pos ha] at hv
            subst hv
            simp [viewServeTarget] at h
          · rw [if_neg ha] at hv
            by_cases hm : (user.role == Role.MANAGER) = true
            · rw [if_pos hm] at hv
              by_cases hd : managerDeniedCheck le target = true
              · rw [if_pos hd] at hv
                subst hv
                exact ⟨rfl, all_reads_append evs _ hevs rfl⟩
              · rw [if_neg hd] at hv
                subst hv
                simp [viewServeTarget] at h
            · rw [if_neg hm] at hv
              by_cases hu : selfDeniedCheck le user target = true
              · rw [if_pos hu] at hv
                subst hv
                exact ⟨rfl, all_reads_append evs _ hevs rfl⟩
              · rw [if_neg hu] at hv
                subst hv
                simp [viewServeTarget] at h

/-- Amended C6: on a DENY decision `view_profile_api` performs no store
write — the store is returned unchanged and every event in its access
trace is a read.  (It may, however, have read the actor's own and the
target's Employee rows before denying, as the counterexample shows.) -/
theorem denied_view_no_store_write (s : Store) (user : User)
    (emp_id : Option String)
    (h : (view_profile_api s user emp_id).resp =
      ViewProfileResp.permissionDenied) :
    (view_profile_api s user emp_id).store = s ∧
    ((view_profile_api s user emp_id).events.all
      fun ev => !ev.isWrite) = true := by
  obtain ⟨v, hv⟩ : ∃ v, view_profile_api s user emp_id = v := ⟨_, rfl⟩
  rw [hv] at h ⊢
  unfold view_profile_api at hv
  by_cases hg : (user.role == Role.MANAGER || user.role == Role.EMPLOYEE) = true
  · rw [if_pos hg] at hv
    cases hown : findEmployeeByUserId s user.id with
    | none =>
        simp only [hown] at hv
        subst hv
        exact ⟨rfl, by simp [StoreEvent.isWrite]⟩
    | some own =>
        simp only [hown] at hv
        rw [← hv] at h ⊢
        exact viewWithLoggedIn_denied_no_write s _ user (some own) emp_id
          (by simp [StoreEvent.isWrite]) h
  · rw [if_neg hg] at hv
    rw [← hv] at h ⊢
    exact viewWithLoggedIn_denied_no_write s [] user none emp_id rfl h

/-- Witness for the amended C6 at the counterexample's input: the denied
request leaves the sample store unchanged and its trace is all reads. -/
theorem denied_view_no_store_write_witness :
    (view_profile_api storeA uMgr (some "E3")).store = storeA ∧
    (view_profile_api storeA uMgr (some "E3")).events.all
      (fun ev => !ev.isWrite) = true :=
  denied_view_no_store_write storeA uMgr (some "E3") (by decide)

/-- Counterexample for C7: an ADMIN principal with no Employee record who
requests their own profile with no target id through `view_profile_api` is
answered with PermissionDenied — an error — contradicting "the request is
never answered with an error". -/
theorem own_profile_admin_error_counterexample :
    uAdmin.role = Role.ADMIN ∧
    findEmployeeByUserId storeEmpty uAdmin.id = none ∧
    (view_profile_api storeEmpty uAdmin none).resp =
      ViewProfileResp.permissionDenied := by decide

/-- Amended C7: through `employee_profile_api` (the self-service endpoint)
the request always succeeds for an actor with no Employee record: the
response carries no employee_record field, the profile exists afterwards,
and it is created unverified when it was absent.  (`view_profile_api`
without a target id, by contrast, denies an actor with no Employee
record.) -/
theorem own_profile_get_lazy_success (s : Store) (user : User)
    (h : findEmployeeByUserId s user.id = none) :
    ∃ p, (employee_profile_api_get s user).1 = ProfileGetResp.okNoEmployee p ∧
      findProfileByUserId (employee_profile_api_get s user).2 user.id = some p ∧
      (findProfileByUserId s user.id = none → p.verified = false) := by
  refine ⟨(get_or_create_profile s user.id).1, ?_, ?_, ?_⟩
  · have hemp :
        findEmployeeByUserId (get_or_create_profile s user.id).2.1 user.id =
          none := by
      unfold findEmployeeByUserId at h ⊢
      rw [get_or_create_profile_employees]
      exact h
    simp [employee_profile_api_get, hemp]
  · have hfound := get_or_create_profile_found s user.id
    have hemp :
        findEmployeeByUserId (get_or_create_profile s user.id).2.1 user.id =
          none := by
      unfold findEmployeeByUserId at h ⊢
      rw [get_or_create_profile_employees]
      exact h
    simp [employee_profile_api_get, hemp, hfound]
  · intro habs
    simp [get_or_create_profile, habs, freshProfile]

/-- Witness for the amended C7: the ADMIN principal over the empty store. -/
theorem own_profile_get_lazy_success_witness :
    ∃ p, (employee_profile_api_get storeEmpty uAdmin).1 =
        ProfileGetResp.okNoEmployee p ∧
      findProfileByUserId (employee_profile_api_get storeEmpty uAdmin).2
        uAdmin.id = some p ∧
      (findProfileByUserId storeEmpty uAdmin.id = none → p.verified = false) :=
  own_profile_get_lazy_success storeEmpty uAdmin rfl

/-- C8: the employee PUT changes only the fields present in the payload;
identity fields and every absent field keep their prior value, and the
saved row is what the lookup returns afterwards. -/
theorem employee_update_frame (s : Store) (actor : User) (pk : Nat)
    (d : EmployeeUpdatePayload) (e : Employee)
    (hrole : isAdminHR actor.role = true)
    (he : findEmployeeByPk s pk = some e) :
    ∃ e1,
      (employee_detail_api_put s actor pk d).1 = DetailResp.ok e1 ∧
      findEmployeeByPk (employee_detail_api_put s actor pk d).2 pk = some e1 ∧
      e1.id = e.id ∧ e1.employee_id = e.employee_id ∧ e1.user_id = e.user_id ∧
      (d.department = none → e1.department_id = e.department_id) ∧
      (d.designation = none → e1.designation_id = e.designation_id) ∧
      (d.basic_salary = none → e1.basic_salary = e.basic_salary) ∧
      (d.date_of_joining = none → e1.date_of_joining = e.date_of_joining) := by
  refine ⟨applyEmployeeUpdate e d, ?_, ?_, rfl, rfl, rfl, ?_, ?_, ?_, ?_⟩
  · simp [employee_detail_api_put, hrole, he]
  · have he' : s.employees.find? (fun q => q.id == pk) = some e := he
    have hpk : (e.id == pk) = true := by simpa using List.find?_some he'
    have hres :
        (employee_detail_api_put s actor pk d).2 =
          saveEmployee s (applyEmployeeUpdate e d) := by
      simp [employee_detail_api_put, hrole, he]
    rw [hres]
    unfold findEmployeeByPk saveEmployee
    exact find?_map_update _ Employee.id _ e _ he'
      (by simpa [applyEmployeeUpdate] using hpk) (by simp [applyEmployeeUpdate])
  · intro hd; simp [applyEmployeeUpdate, hd]
  · intro hd; simp [applyEmployeeUpdate, hd]
  · intro hd; simp [applyEmployeeUpdate, hd]
  · intro hd; simp [applyEmployeeUpdate, hd]

/-- Witness for C8: updating only `basic_salary` of employee 2 leaves the
department, designation and joining date unchanged. -/
theorem employee_update_frame_witness :
    ∃ e1,
      (employee_detail_api_put storeA uAdmin 2
        { department := none, designation := none, basic_salary := some 999,
          date_of_joining := none }).1 = DetailResp.ok e1 ∧
      findEmployeeByPk (employee_detail_api_put storeA uAdmin 2
        { department := none, designation := none, basic_salary := some 999,
          date_of_joining := none }).2 2 = some e1 ∧
      e1.id = eEmp.id ∧ e1.employee_id = eEmp.employee_id ∧
      e1.user_id = eEmp.user_id ∧
      (({ department := none, designation := none, basic_salary := some 999,
          date_of_joining := none } : EmployeeUpdatePayload).department = none →
        e1.department_id = eEmp.department_id) ∧
      (({ department := none, designation := none, basic_salary := some 999,
          date_of_joining := none } : EmployeeUpdatePayload).designation = none →
        e1.designation_id = eEmp.designation_id) ∧
      (({ department := none, designation := none, basic_salary := some 999,
          date_of_joining := none } : EmployeeUpdatePayload).basic_salary = none →
        e1.basic_salary = eEmp.basic_salary) ∧
      (({ department := none, designation := none, basic_salary := some 999,
          date_of_joining := none } : EmployeeUpdatePayload).date_of_joining = none →
        e1.date_of_joining = eEmp.date_of_joining) :=
  employee_update_frame storeA uAdmin 2
    { department := none, designation := none, basic_salary := some 999,
      date_of_joining := none } eEmp rfl (by decide)

/-- Onboarding payload used to exhibit the missing-atomicity behaviour. -/
def payloadOnboard : EmployeeCreatePayload :=
  { username := "newuser", first_name := "N", last_name := "U",
    email := "n@example.com", department := 1, designation := 1,
    date_of_joining := "2024-01-01", basic_salary := 1000, role := none }

/-- C9 (failing input): with a valid payload over the empty store, if the
Employee-creation store step fails after the principal has been created,
the store ends with exactly the new principal and no Employee and no
Profile for it — an orphan principal, because the handler wraps the three
creations in no atomic unit.  This contradicts the claimed
all-or-nothing rollback. -/
theorem onboarding_not_atomic :
    (create_employee_api storeEmpty uAdmin payloadOnboard true false).1 =
      CreateResp.storeError ∧
    (create_employee_api storeEmpty uAdmin payloadOnboard true false).2.users =
      [{ id := 0, username := "newuser", first_name := "N", last_name := "U",
         email := "n@example.com", role := Role.EMPLOYEE }] ∧
    findEmployeeByUserId
      (create_employee_api storeEmpty uAdmin payloadOnboard true false).2 0 =
      none ∧
    findProfileByUserId
      (create_employee_api storeEmpty uAdmin payloadOnboard true false).2 0 =
      none := by decide

/-- C10: whatever role value the payload carries, a valid onboarding by an
ADMIN/HR actor appends exactly one principal to the user table, and that
principal's role is EMPLOYEE. -/
theorem onboard_role_always_employee (s : Store) (actor : User)
    (d : EmployeeCreatePayload) (employee_step_ok : Bool)
    (hrole : isAdminHR actor.role = true) :
    ∃ u, (create_employee_api s actor d true employee_step_ok).2.users =
        s.users ++ [u] ∧
      u.role = Role.EMPLOYEE ∧ u.username = d.username := by
  refine ⟨{ id := s.nextUserId, username := d.username,
            first_name := d.first_name, last_name := d.last_name,
            email := d.email, role := Role.EMPLOYEE }, ?_, rfl, rfl⟩
  cases employee_step_ok <;> simp [create_employee_api, hrole]

/-- Witness for C10: onboarding a payload that asks for the ADMIN role
still yields an EMPLOYEE principal. -/
theorem onboard_role_always_employee_witness :
    ∃ u, (create_employee_api storeEmpty uAdmin
        { payloadOnboard with role := some Role.ADMIN } true true).2.users =
        storeEmpty.users ++ [u] ∧
      u.role = Role.EMPLOYEE ∧
      u.username = ({ payloadOnboard with role := some Role.ADMIN } :
        EmployeeCreatePayload).username :=
  onboard_role_always_employee storeEmpty uAdmin
    { payloadOnboard with role := some Role.ADMIN } true rfl

end HRMS
